import Mathlib

/-!
Verification of the client-side telemetry/replay engine of the Smart
Warehouse Enterprise Simulator dashboard.

The definitions below are a shallow embedding of the TypeScript source:

* `src/smart_warehouse/ui/dashboard/src/types.ts` — the data model;
* `src/smart_warehouse/ui/dashboard/src/pages/OperationsDashboard.tsx` — the
  tick buffer, replay controller, connection manager and run catalog;
* `src/smart_warehouse/ui/dashboard/src/components/WarehouseCanvas.tsx` — the
  heatmap layer of the spatial renderer;
* the `RunPlaybackControls` component (playback slider) — the seek entry
  point, whose slider is disabled outside replay mode.

Conventions used throughout:

* TypeScript `number` fields carrying integral data are modelled as
  `Int`/`Nat`; fractional measurements (metrics, elapsed seconds, canvas
  intensities) as `ℚ`.
* ISO timestamp strings that the source only ever consumes through
  `new Date(s).getTime()` are modelled directly by that epoch number as an
  `Int`.
* React state updates performed inside one callback are modelled as one
  atomic state transformation, matching the batched single-threaded
  execution model of the source.  `useRef` cells are fields of the same
  state record, and the `useEffect` hooks that the updates trigger are
  folded into the transitions that trigger them.
* `Record<string, number>` objects iterated with `Object.entries` are
  modelled as association lists in insertion order.
-/

namespace SmartWarehouse

/-! ## Data model (`types.ts`) -/

structure GridPosition where
  x : Int
  y : Int
deriving DecidableEq, Repr

structure Layout where
  width : Int
  height : Int
  cell_size : Int
  obstacles : List GridPosition
  pickup_zones : List GridPosition
  dropoff_zones : List GridPosition
  charging_zones : Option (List GridPosition)
deriving DecidableEq, Repr

structure SimulationPackage where
  id : String
  position : GridPosition
  status : String
  assigned_robot : Option String
  created_at : String
deriving DecidableEq, Repr

structure Reservation where
  robot_id : String
  position : GridPosition
  expires_at : String
deriving DecidableEq, Repr

structure RobotTelemetry where
  robot_id : String
  state : String
  position : GridPosition
  battery_level : ℚ
  current_job : Option String
  path : List GridPosition
deriving DecidableEq, Repr

structure SimulationState where
  packages : List SimulationPackage
  reservations : List Reservation
  robots : List RobotTelemetry
  layout : Layout
deriving DecidableEq, Repr

inductive RunStage where
  | QUEUED
  | WARMING_UP
  | RUNNING
  | COMPLETED
  | FAILED
  | CANCELLED
deriving DecidableEq, Repr

structure RunMetrics where
  throughput_per_hour : ℚ
  sla_breaches : Nat
  average_cycle_time_seconds : ℚ
  active_robots : Nat
  utilization : ℚ
  fault_ratio : ℚ
  queue_depth : Nat
  delivered : Nat
  spawned : Nat
deriving DecidableEq, Repr

/-- `heatmap: Record<string, number>` — cumulative visit counts per grid-cell
key (`"x:y"`), iterated in insertion order by `Object.entries`; modelled as
an association list.  Visit counts are cumulative counters, modelled as `ℕ`
(so the source's `maxCount <= 0` guard becomes `maxCount = 0`). -/
abbrev Heatmap := List (String × Nat)

structure TimelineEventDetail where
  timestamp : String
  type : String
  message : String
  /-- `payload: Record<string, unknown>` is opaque to the engine and rendered
  verbatim; modelled as an association list of strings. -/
  payload : List (String × String)
deriving DecidableEq, Repr

structure RunTick where
  stage : RunStage
  elapsed_seconds : ℚ
  state : SimulationState
  metrics : RunMetrics
  heatmap : Heatmap
  recent_events : List TimelineEventDetail
deriving DecidableEq, Repr

structure ScenarioRun where
  id : String
  scenario_id : String
  stage : RunStage
  /-- ISO timestamp, consumed only via `new Date(created_at).getTime()`;
  modelled by that epoch value. -/
  created_at : Int
  started_at : Option Int
  completed_at : Option Int
  metrics : RunMetrics
  heatmap : Heatmap
  error : Option String
deriving DecidableEq, Repr

structure ScenarioRunDetail extends ScenarioRun where
  state : Option SimulationState
  timeline : List TimelineEventDetail
deriving DecidableEq, Repr

structure ScenarioLayoutConfig where
  width : Int
  height : Int
  cell_size : Int
  pickup_zones : List GridPosition
  dropoff_zones : List GridPosition
  obstacles : List GridPosition
  charging_zones : Option (List GridPosition)
deriving DecidableEq, Repr

/-- Scenario configuration.  Only `name` and `layout` are consumed by the
verified components (fallback layout and labels); the fleet, demand,
operations, failures, optimization, horizon and metadata sections are not
read by them and are omitted. -/
structure ScenarioConfig where
  name : String
  description : String
  layout : ScenarioLayoutConfig
deriving DecidableEq, Repr

structure ScenarioSummary where
  id : String
  created_at : Int
  config : ScenarioConfig
deriving DecidableEq, Repr

/-! ## Dashboard state (`OperationsDashboard.tsx`) -/

def TICK_HISTORY_LIMIT : Nat := 900

def TIMELINE_LIMIT : Nat := 200

inductive Mode where
  | live
  | replay
deriving DecidableEq, Repr

/-- The pending `window.setTimeout` registered by `scheduleReconnect`
(`reconnectTimerRef`): the delay in milliseconds and the
`connect(attempt + 1)` call it will make, whose closure captured `runId`. -/
structure ReconnectTimer where
  runId : String
  nextAttempt : Nat
  delayMs : Nat
deriving DecidableEq, Repr

/-- The `useState` hooks and `useRef` cells of `OperationsDashboard`.
`modeRef` always equals `mode` (it is re-synchronised by the effect on
`[mode, tickHistory.length]` before any stream callback can run) and is
therefore not duplicated.  `toasts` accumulates every toast message raised
and `refreshRunsCount` counts the `refreshRuns()` invocations; both are
observation logs for the verification, never read by transitions. -/
structure DashboardState where
  scenarios : List ScenarioSummary
  runs : List ScenarioRun
  selectedScenario : Option ScenarioSummary
  activeRun : Option ScenarioRunDetail
  timeline : List TimelineEventDetail
  tickHistory : List RunTick
  mode : Mode
  cursor : Nat
  activeRunIdRef : Option String
  runStageRef : Option RunStage
  reconnectTimerRef : Option ReconnectTimer
  /-- `socketRef`: the open socket's target run id and the attempt number of
  the `connect` call that opened it. -/
  socketRef : Option (String × Nat)
  toasts : List String
  refreshRunsCount : Nat
deriving DecidableEq, Repr

/-! ## Tick buffer and timeline aggregator (`handleTick`) -/

/-- The `tickHistory` update inside `handleTick`
(`OperationsDashboard.tsx` lines 180-188): append the tick, then `shift()`
(drop the head) when the cap is exceeded. -/
def appendTick (previous : List RunTick) (tick : RunTick) : List RunTick :=
  let next := previous ++ [tick]
  if TICK_HISTORY_LIMIT < next.length then next.drop 1 else next

/-- The `timeline` update inside `handleTick` (lines 216-222): append the
batch, then `slice(merged.length - TIMELINE_LIMIT)` when over the cap. -/
def mergeTimeline (previous events : List TimelineEventDetail) :
    List TimelineEventDetail :=
  let merged := previous ++ events
  if TIMELINE_LIMIT < merged.length then
    merged.drop (merged.length - TIMELINE_LIMIT)
  else merged

def isTerminal : RunStage → Bool
  | .COMPLETED => true
  | .FAILED => true
  | .CANCELLED => true
  | _ => false

/-- `handleTick` (`OperationsDashboard.tsx` lines 176-229): record the
tick's stage in `runStageRef`, append to the bounded history (moving the
cursor when in live mode, using the length after the eviction), patch the
run list entry and the active run record with the tick's stage, metrics and
heatmap, merge the tick's `recent_events` into the bounded timeline, and
refresh the run list when the tick's stage is terminal. -/
def handleTick (tick : RunTick) (s : DashboardState) : DashboardState :=
  let runId := s.activeRunIdRef
  let s1 : DashboardState := { s with runStageRef := some tick.stage }
  let next := appendTick s1.tickHistory tick
  let s2 : DashboardState := { s1 with
    tickHistory := next
    cursor := if s1.mode = Mode.live then next.length - 1 else s1.cursor }
  let s3 : DashboardState :=
    match runId with
    | some rid =>
      { s2 with runs := s2.runs.map (fun run =>
          if run.id = rid then
            { run with
              stage := tick.stage
              metrics := tick.metrics
              heatmap := tick.heatmap }
          else run) }
    | none => s2
  let s4 : DashboardState := { s3 with activeRun := s3.activeRun.map (fun previous =>
      { previous with
        stage := tick.stage
        metrics := tick.metrics
        heatmap := tick.heatmap
        state := some tick.state }) }
  let s5 : DashboardState :=
    if tick.recent_events ≠ [] then
      { s4 with timeline := mergeTimeline s4.timeline tick.recent_events }
    else s4
  if isTerminal tick.stage then
    { s5 with refreshRunsCount := s5.refreshRunsCount + 1 }
  else s5

/-! ## Replay controller -/

/-- The `useEffect` on `[mode, tickHistory.length]`
(`OperationsDashboard.tsx` lines 151-156): being in live mode with a
non-empty history re-snaps the cursor to the last index. -/
def modeEffect (s : DashboardState) : DashboardState :=
  if s.mode = .live ∧ s.tickHistory ≠ [] then
    { s with cursor := s.tickHistory.length - 1 }
  else s

/-- `setMode` as invoked from the mode toggle buttons, composed with the
effect on `[mode, tickHistory.length]` that the update triggers. -/
def setMode (m : Mode) (s : DashboardState) : DashboardState :=
  modeEffect { s with mode := m }

/-- `onSeek` wired to the range slider in `RunPlaybackControls`: the slider
is disabled unless the mode is `replay` and more than one tick is buffered,
and the range input clamps its value to `[0, historyLength - 1]`; outside
those conditions no `setCursor` happens. -/
def seek (i : Nat) (s : DashboardState) : DashboardState :=
  if s.mode = .replay ∧ 1 < s.tickHistory.length ∧
      i ≤ s.tickHistory.length - 1 then
    { s with cursor := i }
  else s

/-- The `activeTick` memo (`OperationsDashboard.tsx` lines 55-63):
`tickHistory[cursor] ?? tickHistory[tickHistory.length - 1]` in replay mode,
the last element in live mode, `null` when the buffer is empty. -/
def activeTick (s : DashboardState) : Option RunTick :=
  if s.tickHistory = [] then none
  else if s.mode = .replay then
    match s.tickHistory.get? s.cursor with
    | some tick => some tick
    | none => s.tickHistory.get? (s.tickHistory.length - 1)
  else s.tickHistory.get? (s.tickHistory.length - 1)

/-- `currentState` (line 65): `activeTick?.state ?? activeRun?.state ?? null`. -/
def currentState (s : DashboardState) : Option SimulationState :=
  match activeTick s with
  | some tick => some tick.state
  | none =>
    match s.activeRun with
    | some run => run.state
    | none => none

/-- `currentMetrics` (line 66): `activeTick?.metrics ?? activeRun?.metrics ?? null`. -/
def currentMetrics (s : DashboardState) : Option RunMetrics :=
  match activeTick s with
  | some tick => some tick.metrics
  | none => s.activeRun.map (fun run => run.metrics)

/-- `currentHeatmap` (line 67): `activeTick?.heatmap ?? activeRun?.heatmap ?? {}`. -/
def currentHeatmap (s : DashboardState) : Heatmap :=
  match activeTick s with
  | some tick => tick.heatmap
  | none =>
    match s.activeRun with
    | some run => run.heatmap
    | none => []

/-- The `activeScenario` memo (lines 71-79). -/
def activeScenario (s : DashboardState) : Option ScenarioSummary :=
  match s.activeRun with
  | some run =>
    match s.scenarios.find? (fun item => item.id == run.scenario_id) with
    | some matched => some matched
    | none => s.selectedScenario
  | none => s.selectedScenario

/-- The `Layout` object built by the `fallbackLayout` memo from a scenario's
configured layout (lines 86-94). -/
def configLayout (layout : ScenarioLayoutConfig) : Layout :=
  { width := layout.width
    height := layout.height
    cell_size := layout.cell_size
    obstacles := layout.obstacles
    pickup_zones := layout.pickup_zones
    dropoff_zones := layout.dropoff_zones
    charging_zones := layout.charging_zones }

/-- The `fallbackLayout` memo (lines 81-95). -/
def fallbackLayout (s : DashboardState) : Option Layout :=
  (activeScenario s).map (fun scn => configLayout scn.config.layout)

/-- The `layout` prop handed to `WarehouseCanvas`
(line 521): `currentState?.layout ?? fallbackLayout`. -/
def canvasLayout (s : DashboardState) : Option Layout :=
  match currentState s with
  | some st => some st.layout
  | none => fallbackLayout s

/-- The `packages` prop (line 522): `currentState?.packages ?? []`. -/
def canvasPackages (s : DashboardState) : List SimulationPackage :=
  match currentState s with
  | some st => st.packages
  | none => []

/-- The `robots` prop (line 523): `currentState?.robots ?? []`. -/
def canvasRobots (s : DashboardState) : List RobotTelemetry :=
  match currentState s with
  | some st => st.robots
  | none => []

/-- The `reservations` prop (line 524): `currentState?.reservations ?? []`. -/
def canvasReservations (s : DashboardState) : List Reservation :=
  match currentState s with
  | some st => st.reservations
  | none => []

/-! ## Connection manager (`attachRunStream` and its closures) -/

/-- The `shouldReconnect` closure inside `attachRunStream`
(`OperationsDashboard.tsx` lines 233-239): the captured run id must still be
the active one, and the last known stage must be `null`, `WARMING_UP` or
`RUNNING`. -/
def shouldReconnect (s : DashboardState) (runId : String) : Bool :=
  if s.activeRunIdRef = some runId then
    match s.runStageRef with
    | none => true
    | some stage => stage == RunStage.WARMING_UP || stage == RunStage.RUNNING
  else false

/-- The stage half of the reconnect guard as a proposition: the last known
stage is `null`, `WARMING_UP` or `RUNNING`. -/
def reconnectableStage : Option RunStage → Prop
  | none => True
  | some stage => stage = RunStage.WARMING_UP ∨ stage = RunStage.RUNNING

instance (o : Option RunStage) : Decidable (reconnectableStage o) := by
  cases o with
  | none => exact isTrue trivial
  | some stage => exact inferInstanceAs (Decidable (_ ∨ _))

/-- `clearReconnectTimer` (`OperationsDashboard.tsx` lines 97-102). -/
def clearReconnectTimer (s : DashboardState) : DashboardState :=
  { s with reconnectTimerRef := none }

/-- `closeSocket` (lines 104-114): cancel any pending reconnect timer first,
then close and drop the socket. -/
def closeSocket (s : DashboardState) : DashboardState :=
  { clearReconnectTimer s with socketRef := none }

/-- The `scheduleReconnect` closure (lines 241-256): clear any pending
timer; abandon (with a one-shot `refreshRuns`) when `shouldReconnect` fails;
raise the terminal toast and abandon (with a `refreshRuns`) from the fifth
attempt on; otherwise register a timer for `connect(attempt + 1)` after
`Math.min(5, attempt + 1) * 1000` milliseconds. -/
def scheduleReconnect (runId : String) (attempt : Nat) (s : DashboardState) :
    DashboardState :=
  let s0 := clearReconnectTimer s
  if ¬ shouldReconnect s0 runId = true then
    { s0 with
      reconnectTimerRef := none
      refreshRunsCount := s0.refreshRunsCount + 1 }
  else if 5 ≤ attempt then
    { s0 with
      toasts := s0.toasts ++ ["Run stream lost connection"]
      reconnectTimerRef := none
      refreshRunsCount := s0.refreshRunsCount + 1 }
  else
    { s0 with reconnectTimerRef := some (ReconnectTimer.mk runId (attempt + 1) (Nat.min 5 (attempt + 1) * 1000)) }

/-- The `connect` closure (lines 258-285): cancel any timer, pin the active
run id to the captured `runId`, tear down the previous socket, then open a
new socket whose callbacks capture `runId` and `attempt`. -/
def connect (runId : String) (attempt : Nat) (s : DashboardState) :
    DashboardState :=
  let s0 := clearReconnectTimer s
  let s1 : DashboardState := { s0 with activeRunIdRef := some runId }
  let s2 := closeSocket s1
  { s2 with socketRef := some (runId, attempt) }

/-- The `onError` callback passed to `subscribeToRun` by `connect`
(lines 267-273): toast only on the first failure of this connection
attempt, then `scheduleReconnect(attempt)`. -/
def onStreamError (runId : String) (attempt : Nat) (s : DashboardState) :
    DashboardState :=
  let s0 : DashboardState :=
    if attempt = 0 then
      { s with toasts := s.toasts ++ ["Run stream interrupted, reconnecting..."] }
    else s
  scheduleReconnect runId attempt s0

/-- The `onClose` callback passed to `subscribeToRun` by `connect`
(lines 274-282): drop the socket reference; on a clean close or a failed
`shouldReconnect`, cancel any timer and refresh the run metadata once;
otherwise `scheduleReconnect(attempt)`. -/
def onStreamClose (runId : String) (attempt : Nat) (wasClean : Bool)
    (s : DashboardState) : DashboardState :=
  let s0 : DashboardState := { s with socketRef := none }
  if wasClean || !(shouldReconnect s0 runId) then
    { clearReconnectTimer s0 with refreshRunsCount := s0.refreshRunsCount + 1 }
  else
    scheduleReconnect runId attempt s0

/-- Firing of the pending reconnect timer: it performs the
`connect(attempt + 1)` call registered by `scheduleReconnect`. -/
def timerFire (s : DashboardState) : DashboardState :=
  match s.reconnectTimerRef with
  | some t => connect t.runId t.nextAttempt s
  | none => s

/-- The `connect` call (target run id and attempt number) that a firing of
the pending timer would issue, if a timer is pending. -/
def timerFireConnects (s : DashboardState) : Option (String × Nat) :=
  s.reconnectTimerRef.map (fun t => (t.runId, t.nextAttempt))

/-! ## Run selection (`handleRunSelect`) -/

/-- The synthetic seed tick built from a fetched run detail
(`OperationsDashboard.tsx` lines 327-338): one tick carrying the stored
state with the run's last-known metrics and heatmap, `elapsed_seconds: 0`
and no events — or no tick at all when the detail has no stored state. -/
def seedTick (detail : ScenarioRunDetail) : List RunTick :=
  match detail.state with
  | some st =>
    [{ stage := detail.stage
       elapsed_seconds := 0
       state := st
       metrics := detail.metrics
       heatmap := detail.heatmap
       recent_events := [] }]
  | none => []

/-- `detail.stage === "RUNNING" || detail.stage === "WARMING_UP"`
(line 341), also the stage test of the auto-select heuristic (line 410). -/
def isLiveStage (stage : RunStage) : Bool :=
  stage == RunStage.RUNNING || stage == RunStage.WARMING_UP

/-- `handleRunSelect` (lines 311-356), success path, with the resolved
results of the two fetches (`fetchRunDetail`, `fetchRunTimeline`) passed in:
pin the refs to the fetched detail, replace the timeline with the last
`TIMELINE_LIMIT` stored events, re-point the selected scenario, replace the
tick history with the seed tick, set mode and cursor, then attach the
stream (live stages) or close the socket (terminal stages).  The
`useEffect` on `[mode, tickHistory.length]` triggered by these updates is
applied at the end. -/
def handleRunSelect (detail : ScenarioRunDetail)
    (timelineSeed : List TimelineEventDetail) (s : DashboardState) :
    DashboardState :=
  let s1 : DashboardState := { s with
    runStageRef := some detail.stage
    activeRunIdRef := some detail.id
    activeRun := some detail
    timeline := timelineSeed.drop (timelineSeed.length - TIMELINE_LIMIT)
    selectedScenario :=
      match s.selectedScenario with
      | some previous =>
        if previous.id = detail.scenario_id then some previous
        else
          match s.scenarios.find? (fun item => item.id == detail.scenario_id) with
          | some matched => some matched
          | none => some previous
      | none => s.scenarios.find? (fun item => item.id == detail.scenario_id) }
  let seed := seedTick detail
  let isLive := isLiveStage detail.stage
  let s2 : DashboardState := { s1 with
    tickHistory := seed
    mode := if isLive then Mode.live
            else if seed ≠ [] then Mode.replay else Mode.live
    cursor := if seed ≠ [] then seed.length - 1 else 0 }
  let s3 := if isLive then connect detail.id 0 s2 else closeSocket s2
  modeEffect s3

/-! ## Run catalog (auto-select heuristic and refreshes) -/

/-- The sort order of the auto-select effect
(`OperationsDashboard.tsx` lines 404-406): most recently created first. -/
def newerEq (a b : ScenarioRun) : Prop :=
  b.created_at ≤ a.created_at

instance : DecidableRel newerEq := fun a b =>
  inferInstanceAs (Decidable (b.created_at ≤ a.created_at))

/-- The run the auto-select effect prefers (lines 401-410): among the runs
of the inspected scenario sorted most-recent-first, the first one whose
stage is `RUNNING` or `WARMING_UP`, else the most recent one.
`Array.prototype.sort` is stable, and a stable sort by a total preorder has
a unique result; it is modelled by insertion sort, which is stable. -/
def preferredRun (sel : ScenarioSummary) (runs : List ScenarioRun) :
    Option ScenarioRun :=
  if runs = [] then none
  else
    let matchingRuns :=
      List.insertionSort newerEq (runs.filter (fun run => run.scenario_id == sel.id))
    match matchingRuns with
    | [] => none
    | first :: _ =>
      some (match matchingRuns.find? (fun run => isLiveStage run.stage) with
            | some run => run
            | none => first)

/-- The body of the auto-select `useEffect` (lines 397-414), returned as
the run id it re-selects (i.e. calls `handleRunSelect` on), or `none` when
it does nothing. -/
def autoSelectTarget (selectedScenario : Option ScenarioSummary)
    (runs : List ScenarioRun) (activeRunId : Option String) : Option String :=
  match selectedScenario with
  | none => none
  | some sel =>
    match preferredRun sel runs with
    | none => none
    | some preferred =>
      if activeRunId = some preferred.id then none else some preferred.id

/-- Resolution of `refreshScenarios` (lines 116-133): replace the scenario
list and re-point the selected scenario at its updated entry, falling back
to the first scenario of the list. -/
def applyScenarios (list : List ScenarioSummary) (s : DashboardState) :
    DashboardState :=
  { s with
    scenarios := list
    selectedScenario :=
      match s.selectedScenario with
      | some previous =>
        match list.find? (fun item => item.id == previous.id) with
        | some updated => some updated
        | none => list.head?
      | none => list.head? }

/-! ## Spatial renderer: heatmap layer (`WarehouseCanvas.tsx`) -/

/-- JS `String.prototype.split` with a one-character separator, on the
character list of the string. -/
def splitChars (sep : Char) : List Char → List (List Char)
  | [] => [[]]
  | c :: rest =>
    let groups := splitChars sep rest
    if c = sep then [] :: groups
    else
      match groups with
      | [] => [[c]]
      | g :: gs => (c :: g) :: gs

/-- Decimal digit value of a character. -/
def digitVal (c : Char) : Option Nat :=
  if '0' ≤ c ∧ c ≤ '9' then some (c.toNat - '0'.toNat) else none

/-- Accumulates the maximal leading run of decimal digits; `none` when no
digit has been consumed yet. -/
def parseNatAux : List Char → Option Nat → Option Nat
  | [], acc => acc
  | c :: rest, acc =>
    match digitVal c with
    | some d => parseNatAux rest (some (acc.getD 0 * 10 + d))
    | none => acc

/-- `Number.parseInt(s, 10)` on the inputs occurring here (no leading
whitespace, no hex): an optional sign followed by the maximal leading run
of decimal digits; `none` models `NaN`. -/
def parseIntJS : List Char → Option Int
  | '-' :: rest => (parseNatAux rest none).map (fun n => -(n : Int))
  | '+' :: rest => (parseNatAux rest none).map (fun n => (n : Int))
  | cs => (parseNatAux cs none).map (fun n => (n : Int))

/-- Key parsing inside `drawHeatmap` (`WarehouseCanvas.tsx` lines 94-99):
`key.split(":")`, `Number.parseInt` on the first two parts, and the entry is
skipped when either is `NaN` (including the one-part case, where the second
operand is `undefined`). -/
def parseCellKey (key : String) : Option (Int × Int) :=
  match splitChars ':' key.data with
  | xRaw :: yRaw :: _ =>
    match parseIntJS xRaw, parseIntJS yRaw with
    | some x, some y => some (x, y)
    | _, _ => none
  | _ => none

/-- One heatmap cell fill performed by `drawHeatmap`: the cell coordinates,
the computed `intensity`, and the `ctx.globalAlpha` in force for the fill
(the source sets it to the intensity just before filling).  An
alpha-blended fill with alpha `0` is the identity on the canvas. -/
structure HeatOp where
  x : Int
  y : Int
  intensity : ℚ
  alpha : ℚ
deriving DecidableEq, Repr

/-- `maxCount` (`WarehouseCanvas.tsx` line 89): `Math.max` over the visit
counts of the snapshot. -/
def maxCount (heatmap : Heatmap) : Nat :=
  (heatmap.map Prod.snd).foldl Nat.max 0

/-- `drawHeatmap` (`WarehouseCanvas.tsx` lines 77-110) as the ordered list
of cell fills it performs: nothing for an empty heatmap or an all-zero
snapshot, otherwise one fill per parseable entry with
`intensity = Math.min(count / maxCount, 1)` and `globalAlpha = intensity`.
(The `heatmap === undefined` early return corresponds to the caller's
`showHeatmap` guard and carries no entries.) -/
def drawHeatmap (heatmap : Heatmap) : List HeatOp :=
  if heatmap = [] then []
  else if maxCount heatmap = 0 then []
  else
    heatmap.filterMap (fun entry =>
      match parseCellKey entry.1 with
      | none => none
      | some (x, y) =>
        let intensity := min ((entry.2 : ℚ) / (maxCount heatmap : ℚ)) 1
        some { x := x, y := y, intensity := intensity, alpha := intensity })

/-- The fills that change any pixel: alpha-blending with `globalAlpha = 0`
leaves the canvas unchanged. -/
def visibleHeatOps (heatmap : Heatmap) : List HeatOp :=
  (drawHeatmap heatmap).filter (fun op => decide (0 < op.alpha))

/-! ## The event-driven transition system -/

/-- The external triggers that drive the dashboard state: an inbound stream
message, a resolved fetch, a socket callback, a timer fire, or a user
interaction.  `selectRun` carries the resolved results of the two fetches
`handleRunSelect` awaits; `runsFetched` / `scenariosFetched` are the
resolutions of `refreshRuns` / `refreshScenarios`; `closeView` is the
unmount cleanup (`closeSocket`). -/
inductive Event where
  | tick (t : RunTick)
  | selectRun (detail : ScenarioRunDetail) (timelineSeed : List TimelineEventDetail)
  | streamError (runId : String) (attempt : Nat)
  | streamClose (runId : String) (attempt : Nat) (wasClean : Bool)
  | timerFired
  | modeChange (m : Mode)
  | seekTo (i : Nat)
  | runsFetched (list : List ScenarioRun)
  | scenariosFetched (list : List ScenarioSummary)
  | scenarioPicked (sc : ScenarioSummary)
  | closeView

/-- One step of the dashboard: the handler the source installs for each
trigger. -/
def step (s : DashboardState) : Event → DashboardState
  | .tick t => handleTick t s
  | .selectRun detail timelineSeed => handleRunSelect detail timelineSeed s
  | .streamError runId attempt => onStreamError runId attempt s
  | .streamClose runId attempt wasClean => onStreamClose runId attempt wasClean s
  | .timerFired => timerFire s
  | .modeChange m => setMode m s
  | .seekTo i => seek i s
  | .runsFetched list => { s with runs := list }
  | .scenariosFetched list => applyScenarios list s
  | .scenarioPicked sc => { s with selectedScenario := some sc }
  | .closeView => closeSocket s

/-- Invariant behind C2: a pending reconnect timer always targets the
currently active run, so a timer left over from a previous run can never
fire a reconnect for it. -/
def TimerInv (s : DashboardState) : Prop :=
  ∀ t, s.reconnectTimerRef = some t → s.activeRunIdRef = some t.runId

/-- Invariant behind C3: in live mode with a non-empty history the cursor
sits on the last valid index. -/
def LiveCursorInv (s : DashboardState) : Prop :=
  s.mode = Mode.live → s.tickHistory ≠ [] →
    s.cursor = s.tickHistory.length - 1

/-! ## Concrete sample values (used by witnesses and counterexamples) -/

def sampleLayoutConfig : ScenarioLayoutConfig :=
  { width := 4
    height := 3
    cell_size := 32
    pickup_zones := [{ x := 0, y := 0 }]
    dropoff_zones := [{ x := 3, y := 2 }]
    obstacles := [{ x := 1, y := 1 }]
    charging_zones := none }

def sampleScenario : ScenarioSummary :=
  { id := "scenario-1"
    created_at := 50
    config :=
      { name := "Sample scenario"
        description := "sample"
        layout := sampleLayoutConfig } }

def sampleLayout : Layout := configLayout sampleLayoutConfig

def sampleSimState : SimulationState :=
  { packages := [], reservations := [], robots := [], layout := sampleLayout }

def sampleMetrics : RunMetrics :=
  { throughput_per_hour := 0
    sla_breaches := 0
    average_cycle_time_seconds := 0
    active_robots := 0
    utilization := 0
    fault_ratio := 0
    queue_depth := 0
    delivered := 0
    spawned := 0 }

def sampleTick : RunTick :=
  { stage := RunStage.RUNNING
    elapsed_seconds := 1
    state := sampleSimState
    metrics := sampleMetrics
    heatmap := [("0:0", 1)]
    recent_events := [] }

/-- The initial dashboard state (the `useState` initialisers and the `null`
initialisers of the refs). -/
def initialState : DashboardState :=
  { scenarios := []
    runs := []
    selectedScenario := none
    activeRun := none
    timeline := []
    tickHistory := []
    mode := Mode.live
    cursor := 0
    activeRunIdRef := none
    runStageRef := none
    reconnectTimerRef := none
    socketRef := none
    toasts := []
    refreshRunsCount := 0 }

/-- A state scrubbed to index 10 of 50 buffered ticks in replay mode (the
scenario of the spec's frame-effect test). -/
def replayAt10 : DashboardState :=
  { initialState with
    tickHistory := List.replicate 50 sampleTick
    mode := Mode.replay
    cursor := 10
    activeRunIdRef := some "run-a"
    runStageRef := some RunStage.RUNNING }

/-- A fetched run detail of a finished run carrying a stored state
snapshot. -/
def sampleDetail : ScenarioRunDetail :=
  { id := "run-a"
    scenario_id := "scenario-1"
    stage := RunStage.COMPLETED
    created_at := 100
    started_at := some 100
    completed_at := some 200
    metrics := sampleMetrics
    heatmap := [("0:0", 2)]
    error := none
    state := some sampleSimState
    timeline := [] }

/-- A live run of the sample scenario, created at epoch 100. -/
def runA : ScenarioRun :=
  { id := "run-a"
    scenario_id := "scenario-1"
    stage := RunStage.RUNNING
    created_at := 100
    started_at := some 100
    completed_at := none
    metrics := sampleMetrics
    heatmap := []
    error := none }

/-- A finished run of the same scenario, created later (epoch 200). -/
def runB : ScenarioRun :=
  { id := "run-b"
    scenario_id := "scenario-1"
    stage := RunStage.COMPLETED
    created_at := 200
    started_at := some 200
    completed_at := some 300
    metrics := sampleMetrics
    heatmap := []
    error := none }

/-- A state whose active run is `run-b` with a live last-known stage. -/
def activeRunBState : DashboardState :=
  { initialState with
    activeRunIdRef := some "run-b"
    runStageRef := some RunStage.RUNNING }

/-- A state with a reconnect timer pending for the active run `run-a`. -/
def pendingTimerState : DashboardState :=
  { initialState with
    activeRunIdRef := some "run-a"
    runStageRef := some RunStage.RUNNING
    reconnectTimerRef := some (ReconnectTimer.mk "run-a" 1 1000) }

/-! ## Theorems -/

theorem appendTick_eq_drop (h : List RunTick) (t : RunTick)
    (hh : h.length ≤ TICK_HISTORY_LIMIT) :
    appendTick h t = (h ++ [t]).drop (h.length + 1 - TICK_HISTORY_LIMIT) := by
  simp only [appendTick, List.length_append, List.length_singleton]
  rcases Nat.lt_or_ge h.length TICK_HISTORY_LIMIT with hlt | hge
  · rw [if_neg (by omega)]
    rw [Nat.sub_eq_zero_of_le (by omega), List.drop_zero]
  · have heq : h.length = TICK_HISTORY_LIMIT := le_antisymm hh hge
    rw [if_pos (by omega), show h.length + 1 - TICK_HISTORY_LIMIT = 1 by omega]

theorem appendTick_length_le (h : List RunTick) (t : RunTick)
    (hh : h.length ≤ TICK_HISTORY_LIMIT) :
    (appendTick h t).length ≤ TICK_HISTORY_LIMIT := by
  rw [appendTick_eq_drop h t hh]
  simp only [List.length_drop, List.length_append, List.length_singleton]
  omega

theorem foldl_appendTick (ts : List RunTick) :
    ∀ h : List RunTick, h.length ≤ TICK_HISTORY_LIMIT →
      List.foldl appendTick h ts
        = (h ++ ts).drop ((h ++ ts).length - TICK_HISTORY_LIMIT) := by
  induction ts with
  | nil =>
    intro h hh
    simp only [List.foldl_nil, List.append_nil]
    rw [Nat.sub_eq_zero_of_le hh, List.drop_zero]
  | cons t ts ih =>
    intro h hh
    rw [List.foldl_cons, ih _ (appendTick_length_le h t hh),
      appendTick_eq_drop h t hh]
    have hX : (h ++ [t]).drop (h.length + 1 - TICK_HISTORY_LIMIT) ++ ts
        = ((h ++ [t]) ++ ts).drop (h.length + 1 - TICK_HISTORY_LIMIT) := by
      symm
      rw [List.drop_append_eq_append_drop]
      rw [show h.length + 1 - TICK_HISTORY_LIMIT - (h ++ [t]).length = 0 by
        simp only [List.length_append, List.length_singleton]; omega]
      rw [List.drop_zero]
    rw [hX, List.drop_drop]
    rw [show h ++ t :: ts = (h ++ [t]) ++ ts by simp]
    have harith :
        (h.length + 1 - TICK_HISTORY_LIMIT)
            + ((((h ++ [t]) ++ ts).drop (h.length + 1 - TICK_HISTORY_LIMIT)).length
              - TICK_HISTORY_LIMIT)
          = ((h ++ [t]) ++ ts).length - TICK_HISTORY_LIMIT := by
      simp only [List.length_drop, List.length_append, List.length_singleton]
      omega
    rw [harith]

theorem handleTick_fields (tick : RunTick) (s : DashboardState) :
    (handleTick tick s).tickHistory = appendTick s.tickHistory tick
    ∧ (handleTick tick s).mode = s.mode
    ∧ (handleTick tick s).cursor
        = (if s.mode = Mode.live then (appendTick s.tickHistory tick).length - 1
           else s.cursor)
    ∧ (handleTick tick s).activeRunIdRef = s.activeRunIdRef
    ∧ (handleTick tick s).reconnectTimerRef = s.reconnectTimerRef := by
  refine ⟨?_, ?_, ?_, ?_, ?_⟩ <;>
    (unfold handleTick
     dsimp only
     rcases hA : s.activeRunIdRef with _ | rid <;>
       simp only [hA] <;> (repeat' split) <;> rfl)

theorem foldl_handleTick_tickHistory (ts : List RunTick) :
    ∀ s : DashboardState,
      (ts.foldl (fun st t => handleTick t st) s).tickHistory
        = ts.foldl appendTick s.tickHistory := by
  induction ts with
  | nil => intro s; rfl
  | cons t ts ih =>
    intro s
    rw [List.foldl_cons, List.foldl_cons, ih, (handleTick_fields t s).1]

/-- C1: for every sequence of ticks delivered to `handleTick` (with no
intervening run switch), starting from any history within the cap, the tick
history length never exceeds `TICK_HISTORY_LIMIT = 900`, and the resulting
history is exactly the suffix of the `900` most recently received ticks in
arrival order — the suffix-drop equality says precisely that the oldest
ticks have been evicted from the head and the rest retained in order.
Intermediate states are covered by instantiating `ts` with each prefix of
the delivered sequence; appending past the cap (e.g. starting empty with
`ts.length > 900`) leaves exactly the last `900` ticks. -/
theorem tick_buffer_bounded_fifo (s : DashboardState) (ts : List RunTick)
    (hh : s.tickHistory.length ≤ TICK_HISTORY_LIMIT) :
    ((ts.foldl (fun st t => handleTick t st) s).tickHistory).length
        ≤ TICK_HISTORY_LIMIT
    ∧ (ts.foldl (fun st t => handleTick t st) s).tickHistory
        = (s.tickHistory ++ ts).drop
            ((s.tickHistory ++ ts).length - TICK_HISTORY_LIMIT) := by
  have hfold := foldl_handleTick_tickHistory ts s
  have hform := foldl_appendTick ts s.tickHistory hh
  refine ⟨?_, by rw [hfold, hform]⟩
  rw [hfold, hform]
  simp only [List.length_drop, List.length_append]
  omega

/-- Witness for C1: the empty initial history and a three-tick stream. -/
theorem tick_buffer_bounded_fifo_witness :
    initialState.tickHistory.length ≤ TICK_HISTORY_LIMIT
    ∧ ((([sampleTick, sampleTick, sampleTick].foldl
            (fun st t => handleTick t st) initialState).tickHistory).length
          ≤ TICK_HISTORY_LIMIT
        ∧ ([sampleTick, sampleTick, sampleTick].foldl
            (fun st t => handleTick t st) initialState).tickHistory
          = (initialState.tickHistory ++ [sampleTick, sampleTick, sampleTick]).drop
              ((initialState.tickHistory
                  ++ [sampleTick, sampleTick, sampleTick]).length
                - TICK_HISTORY_LIMIT)) :=
  ⟨by decide,
    tick_buffer_bounded_fifo initialState [sampleTick, sampleTick, sampleTick]
      (by decide)⟩

theorem modeEffect_fields (s : DashboardState) :
    (modeEffect s).mode = s.mode
    ∧ (modeEffect s).tickHistory = s.tickHistory
    ∧ (modeEffect s).activeRunIdRef = s.activeRunIdRef
    ∧ (modeEffect s).reconnectTimerRef = s.reconnectTimerRef
    ∧ (modeEffect s).activeRun = s.activeRun
    ∧ (modeEffect s).timeline = s.timeline := by
  unfold modeEffect
  split <;> exact ⟨rfl, rfl, rfl, rfl, rfl, rfl⟩

theorem modeEffect_liveCursorInv (s : DashboardState) :
    LiveCursorInv (modeEffect s) := by
  unfold LiveCursorInv modeEffect
  split
  · intro _ _; rfl
  · rename_i hcond
    intro hmode hne
    exact absurd ⟨hmode, hne⟩ hcond

theorem shouldReconnect_iff (s : DashboardState) (runId : String) :
    shouldReconnect s runId = true
      ↔ (s.activeRunIdRef = some runId ∧ reconnectableStage s.runStageRef) := by
  unfold shouldReconnect reconnectableStage
  split
  · rename_i hid
    cases hst : s.runStageRef with
    | none => simp [hid]
    | some stage => simp [hid, Bool.or_eq_true, beq_iff_eq]
  · rename_i hid
    simp only [Bool.false_eq_true, false_iff]
    intro hcontra
    exact hid hcontra.1

theorem connect_fields (runId : String) (attempt : Nat) (s : DashboardState) :
    (connect runId attempt s).reconnectTimerRef = none
    ∧ (connect runId attempt s).activeRunIdRef = some runId
    ∧ (connect runId attempt s).mode = s.mode
    ∧ (connect runId attempt s).cursor = s.cursor
    ∧ (connect runId attempt s).tickHistory = s.tickHistory
    ∧ (connect runId attempt s).socketRef = some (runId, attempt) :=
  ⟨rfl, rfl, rfl, rfl, rfl, rfl⟩

theorem scheduleReconnect_cases (runId : String) (attempt : Nat)
    (s : DashboardState) :
    (shouldReconnect s runId = false →
      (scheduleReconnect runId attempt s).reconnectTimerRef = none
      ∧ (scheduleReconnect runId attempt s).refreshRunsCount
          = s.refreshRunsCount + 1)
    ∧ (shouldReconnect s runId = true → 5 ≤ attempt →
      (scheduleReconnect runId attempt s).reconnectTimerRef = none
      ∧ (scheduleReconnect runId attempt s).toasts
          = s.toasts ++ ["Run stream lost connection"]
      ∧ (scheduleReconnect runId attempt s).refreshRunsCount
          = s.refreshRunsCount + 1)
    ∧ (shouldReconnect s runId = true → attempt < 5 →
      (scheduleReconnect runId attempt s).reconnectTimerRef
        = some (ReconnectTimer.mk runId (attempt + 1)
            (Nat.min 5 (attempt + 1) * 1000)))
    ∧ (scheduleReconnect runId attempt s).mode = s.mode
    ∧ (scheduleReconnect runId attempt s).cursor = s.cursor
    ∧ (scheduleReconnect runId attempt s).tickHistory = s.tickHistory
    ∧ (scheduleReconnect runId attempt s).activeRunIdRef = s.activeRunIdRef := by
  have hclear : shouldReconnect (clearReconnectTimer s) runId
      = shouldReconnect s runId := rfl
  unfold scheduleReconnect
  dsimp only
  rw [hclear]
  by_cases hsr : shouldReconnect s runId = true
  · rw [if_neg (by simp [hsr])]
    by_cases ha : 5 ≤ attempt
    · rw [if_pos ha]
      refine ⟨?_, ?_, ?_, rfl, rfl, rfl, rfl⟩
      · intro hfalse; simp [hsr] at hfalse
      · intro _ _; exact ⟨rfl, rfl, rfl⟩
      · intro _ hlt; omega
    · rw [if_neg ha]
      refine ⟨?_, ?_, ?_, rfl, rfl, rfl, rfl⟩
      · intro hfalse; simp [hsr] at hfalse
      · intro _ h5; exact absurd h5 ha
      · intro _ _; rfl
  · rw [if_pos (by simpa using hsr)]
    refine ⟨?_, ?_, ?_, rfl, rfl, rfl, rfl⟩
    · intro _; exact ⟨rfl, rfl⟩
    · intro htrue; exact absurd htrue hsr
    · intro htrue; exact absurd htrue hsr

theorem scheduleReconnect_timer_inv (runId : String) (attempt : Nat)
    (s : DashboardState) :
    ∀ t, (scheduleReconnect runId attempt s).reconnectTimerRef = some t →
      shouldReconnect s runId = true ∧ t.runId = runId
        ∧ t.nextAttempt = attempt + 1 ∧ attempt < 5 := by
  intro t ht
  by_cases hsr : shouldReconnect s runId = true
  · by_cases hlt : attempt < 5
    · have h3 := (scheduleReconnect_cases runId attempt s).2.2.1 hsr hlt
      rw [h3] at ht
      injection ht with h
      subst h
      exact ⟨hsr, rfl, rfl, hlt⟩
    · have h2 := (scheduleReconnect_cases runId attempt s).2.1 hsr (by omega)
      rw [h2.1] at ht
      cases ht
  · have hf : shouldReconnect s runId = false := by
      cases hb : shouldReconnect s runId
      · rfl
      · exact absurd hb hsr
    have h1 := (scheduleReconnect_cases runId attempt s).1 hf
    rw [h1.1] at ht
    cases ht

theorem onStreamError_cases (runId : String) (attempt : Nat)
    (s : DashboardState) :
    (shouldReconnect s runId = false →
      (onStreamError runId attempt s).reconnectTimerRef = none
      ∧ (onStreamError runId attempt s).refreshRunsCount
          = s.refreshRunsCount + 1)
    ∧ (∀ t, (onStreamError runId attempt s).reconnectTimerRef = some t →
        shouldReconnect s runId = true ∧ t.runId = runId
          ∧ t.nextAttempt = attempt + 1)
    ∧ (onStreamError runId attempt s).mode = s.mode
    ∧ (onStreamError runId attempt s).cursor = s.cursor
    ∧ (onStreamError runId attempt s).tickHistory = s.tickHistory
    ∧ (onStreamError runId attempt s).activeRunIdRef = s.activeRunIdRef := by
  unfold onStreamError
  dsimp only
  split
  all_goals
    refine ⟨fun hf => (scheduleReconnect_cases runId attempt _).1 hf,
      fun t ht => ?_,
      (scheduleReconnect_cases runId attempt _).2.2.2.1,
      (scheduleReconnect_cases runId attempt _).2.2.2.2.1,
      (scheduleReconnect_cases runId attempt _).2.2.2.2.2.1,
      (scheduleReconnect_cases runId attempt _).2.2.2.2.2.2⟩
  all_goals
    have h := scheduleReconnect_timer_inv runId attempt _ t ht
    exact ⟨h.1, h.2.1, h.2.2.1⟩

theorem onStreamClose_cases (runId : String) (attempt : Nat) (wasClean : Bool)
    (s : DashboardState) :
    (shouldReconnect s runId = false →
      (onStreamClose runId attempt wasClean s).reconnectTimerRef = none
      ∧ (onStreamClose runId attempt wasClean s).refreshRunsCount
          = s.refreshRunsCount + 1)
    ∧ (wasClean = true →
      (onStreamClose runId attempt wasClean s).reconnectTimerRef = none
      ∧ (onStreamClose runId attempt wasClean s).refreshRunsCount
          = s.refreshRunsCount + 1)
    ∧ (∀ t, (onStreamClose runId attempt wasClean s).reconnectTimerRef = some t →
        wasClean = false ∧ shouldReconnect s runId = true ∧ t.runId = runId
          ∧ t.nextAttempt = attempt + 1)
    ∧ (onStreamClose runId attempt wasClean s).mode = s.mode
    ∧ (onStreamClose runId attempt wasClean s).cursor = s.cursor
    ∧ (onStreamClose runId attempt wasClean s).tickHistory = s.tickHistory
    ∧ (onStreamClose runId attempt wasClean s).activeRunIdRef
        = s.activeRunIdRef := by
  have hs0 : shouldReconnect { s with socketRef := none } runId
      = shouldReconnect s runId := rfl
  unfold onStreamClose
  dsimp only
  split
  · refine ⟨fun _ => ⟨rfl, rfl⟩, fun _ => ⟨rfl, rfl⟩, fun t ht => ?_,
      rfl, rfl, rfl, rfl⟩
    cases ht
  · rename_i hcond
    rw [hs0] at hcond
    simp only [Bool.or_eq_true, Bool.not_eq_true', not_or] at hcond
    obtain ⟨hw, hsr⟩ := hcond
    have hwf : wasClean = false := by
      cases wasClean
      · rfl
      · exact absurd rfl hw
    have hst : shouldReconnect s runId = true := by
      cases hb : shouldReconnect s runId
      · exact absurd hb hsr
      · rfl
    refine ⟨fun hf => absurd hf hsr, ?_, fun t ht => ?_,
      (scheduleReconnect_cases runId attempt _).2.2.2.1,
      (scheduleReconnect_cases runId attempt _).2.2.2.2.1,
      (scheduleReconnect_cases runId attempt _).2.2.2.2.2.1,
      (scheduleReconnect_cases runId attempt _).2.2.2.2.2.2⟩
    · intro hwt
      rw [hwf] at hwt
      cases hwt
    · have h := scheduleReconnect_timer_inv runId attempt _ t ht
      exact ⟨hwf, h.1, h.2.1, h.2.2.1⟩

theorem timerFire_cases (s : DashboardState) :
    (s.reconnectTimerRef = none → timerFire s = s)
    ∧ (∀ t, s.reconnectTimerRef = some t →
        timerFire s = connect t.runId t.nextAttempt s) := by
  constructor
  · intro hn
    unfold timerFire
    split
    · rename_i t ht
      rw [hn] at ht
      cases ht
    · rfl
  · intro t ht
    unfold timerFire
    split
    · rename_i t' ht'
      rw [ht] at ht'
      injection ht' with h
      rw [h]
    · rename_i ht'
      rw [ht] at ht'
      cases ht'

theorem handleRunSelect_fields (detail : ScenarioRunDetail)
    (timelineSeed : List TimelineEventDetail) (s : DashboardState) :
    (handleRunSelect detail timelineSeed s).tickHistory = seedTick detail
    ∧ (handleRunSelect detail timelineSeed s).timeline
        = timelineSeed.drop (timelineSeed.length - TIMELINE_LIMIT)
    ∧ (handleRunSelect detail timelineSeed s).activeRun = some detail
    ∧ (handleRunSelect detail timelineSeed s).activeRunIdRef = some detail.id
    ∧ (handleRunSelect detail timelineSeed s).runStageRef = some detail.stage
    ∧ (handleRunSelect detail timelineSeed s).reconnectTimerRef = none
    ∧ (handleRunSelect detail timelineSeed s).mode
        = (if isLiveStage detail.stage then Mode.live
           else if seedTick detail ≠ [] then Mode.replay else Mode.live)
    ∧ (handleRunSelect detail timelineSeed s).cursor = 0 := by
  rcases hst : detail.state with _ | st <;>
    rcases hL : isLiveStage detail.stage <;>
      simp_all [handleRunSelect, modeEffect, connect, closeSocket,
        clearReconnectTimer, seedTick]

theorem seek_fields (i : Nat) (s : DashboardState) :
    (seek i s).mode = s.mode
    ∧ (seek i s).tickHistory = s.tickHistory
    ∧ (seek i s).activeRunIdRef = s.activeRunIdRef
    ∧ (seek i s).reconnectTimerRef = s.reconnectTimerRef := by
  unfold seek
  split <;> exact ⟨rfl, rfl, rfl, rfl⟩

theorem step_timerInv (s : DashboardState) (e : Event) (hs : TimerInv s) :
    TimerInv (step s e) := by
  cases e with
  | tick t =>
    show TimerInv (handleTick t s)
    intro tm htm
    have hf := handleTick_fields t s
    rw [hf.2.2.2.2] at htm
    rw [hf.2.2.2.1]
    exact hs tm htm
  | selectRun d tl =>
    show TimerInv (handleRunSelect d tl s)
    intro tm htm
    rw [(handleRunSelect_fields d tl s).2.2.2.2.2.1] at htm
    cases htm
  | streamError runId attempt =>
    show TimerInv (onStreamError runId attempt s)
    intro tm htm
    have h := (onStreamError_cases runId attempt s).2.1 tm htm
    rw [(onStreamError_cases runId attempt s).2.2.2.2.2]
    have hact := ((shouldReconnect_iff s runId).mp h.1).1
    rw [hact, h.2.1]
  | streamClose runId attempt wasClean =>
    show TimerInv (onStreamClose runId attempt wasClean s)
    intro tm htm
    have h := (onStreamClose_cases runId attempt wasClean s).2.2.1 tm htm
    rw [(onStreamClose_cases runId attempt wasClean s).2.2.2.2.2.2]
    have hact := ((shouldReconnect_iff s runId).mp h.2.1).1
    rw [hact, h.2.2.1]
  | timerFired =>
    show TimerInv (timerFire s)
    cases hrt : s.reconnectTimerRef with
    | none =>
      rw [(timerFire_cases s).1 hrt]
      exact hs
    | some t0 =>
      rw [(timerFire_cases s).2 t0 hrt]
      intro tm htm
      rw [(connect_fields t0.runId t0.nextAttempt s).1] at htm
      cases htm
  | modeChange m =>
    show TimerInv (setMode m s)
    intro tm htm
    have hf := modeEffect_fields { s with mode := m }
    rw [show setMode m s = modeEffect { s with mode := m } from rfl] at htm ⊢
    rw [hf.2.2.2.1] at htm
    rw [hf.2.2.1]
    exact hs tm htm
  | seekTo i =>
    show TimerInv (seek i s)
    intro tm htm
    rw [(seek_fields i s).2.2.2] at htm
    rw [(seek_fields i s).2.2.1]
    exact hs tm htm
  | runsFetched list =>
    intro tm htm
    exact hs tm htm
  | scenariosFetched list =>
    intro tm htm
    exact hs tm htm
  | scenarioPicked sc =>
    intro tm htm
    exact hs tm htm
  | closeView =>
    intro tm htm
    exact Option.noConfusion
      (show (none : Option ReconnectTimer) = some tm from htm)

theorem step_liveCursorInv (s : DashboardState) (e : Event)
    (hs : LiveCursorInv s) : LiveCursorInv (step s e) := by
  cases e with
  | tick t =>
    show LiveCursorInv (handleTick t s)
    intro hmode hne
    have hf := handleTick_fields t s
    rw [hf.2.1] at hmode
    rw [hf.1, hf.2.2.1, if_pos hmode]
  | selectRun d tl =>
    show LiveCursorInv (handleRunSelect d tl s)
    exact modeEffect_liveCursorInv _
  | streamError runId attempt =>
    show LiveCursorInv (onStreamError runId attempt s)
    intro hmode hne
    have hf := onStreamError_cases runId attempt s
    rw [hf.2.2.1] at hmode
    rw [hf.2.2.2.2.1] at hne
    rw [hf.2.2.2.2.1, hf.2.2.2.1]
    exact hs hmode hne
  | streamClose runId attempt wasClean =>
    show LiveCursorInv (onStreamClose runId attempt wasClean s)
    intro hmode hne
    have hf := onStreamClose_cases runId attempt wasClean s
    rw [hf.2.2.2.1] at hmode
    rw [hf.2.2.2.2.2.1] at hne
    rw [hf.2.2.2.2.2.1, hf.2.2.2.2.1]
    exact hs hmode hne
  | timerFired =>
    show LiveCursorInv (timerFire s)
    cases hrt : s.reconnectTimerRef with
    | none =>
      rw [(timerFire_cases s).1 hrt]
      exact hs
    | some t0 =>
      rw [(timerFire_cases s).2 t0 hrt]
      intro hmode hne
      have hc := connect_fields t0.runId t0.nextAttempt s
      rw [hc.2.2.1] at hmode
      rw [hc.2.2.2.2.1] at hne
      rw [hc.2.2.2.2.1, hc.2.2.2.1]
      exact hs hmode hne
  | modeChange m =>
    show LiveCursorInv (setMode m s)
    exact modeEffect_liveCursorInv _
  | seekTo i =>
    show LiveCursorInv (seek i s)
    unfold seek
    split
    · rename_i hcond
      intro hmode hne
      rw [show ({ s with cursor := i } : DashboardState).mode = s.mode from rfl,
        hcond.1] at hmode
      cases hmode
    · exact hs
  | runsFetched list =>
    intro hmode hne
    exact hs hmode hne
  | scenariosFetched list =>
    intro hmode hne
    exact hs hmode hne
  | scenarioPicked sc =>
    intro hmode hne
    exact hs hmode hne
  | closeView =>
    intro hmode hne
    exact hs hmode hne

/-- C2: on a stream error or an unclean close for the connection to `runId`,
a reconnect timer is left pending only if both guard conditions hold — the
failed connection's run id still equals the active run id, and the last
known stage is `null`, `WARMING_UP` or `RUNNING` (`reconnectableStage`);
when the guard fails (stage terminal, or active run switched) the handlers
leave no timer and trigger exactly one run-metadata refresh instead.
Moreover the invariant `TimerInv` (a pending timer always targets the
currently active run) is preserved by every event of the system, and under
it a firing timer issues its `connect` only for the currently active run —
so no reconnect attempt targeting run `a` is ever issued after the active
run changed to `b ≠ a`, even with a timer pending at the switch (switching
runs clears the timer: see `handleRunSelect_fields` and `connect_fields`). -/
theorem reconnect_guard_and_no_stale_reconnect :
    (∀ (s : DashboardState) (runId : String) (attempt : Nat),
      (¬ (s.activeRunIdRef = some runId ∧ reconnectableStage s.runStageRef) →
        ((onStreamError runId attempt s).reconnectTimerRef = none
          ∧ (onStreamError runId attempt s).refreshRunsCount
              = s.refreshRunsCount + 1)
        ∧ ∀ wasClean,
            (onStreamClose runId attempt wasClean s).reconnectTimerRef = none
            ∧ (onStreamClose runId attempt wasClean s).refreshRunsCount
                = s.refreshRunsCount + 1)
      ∧ (∀ t, (onStreamError runId attempt s).reconnectTimerRef = some t →
          s.activeRunIdRef = some runId ∧ reconnectableStage s.runStageRef
            ∧ t.runId = runId)
      ∧ (∀ wasClean t,
          (onStreamClose runId attempt wasClean s).reconnectTimerRef = some t →
          wasClean = false
            ∧ (s.activeRunIdRef = some runId
                ∧ reconnectableStage s.runStageRef)
            ∧ t.runId = runId))
    ∧ (∀ s e, TimerInv s → TimerInv (step s e))
    ∧ (∀ (s : DashboardState) (a b : String) (n : Nat), TimerInv s →
        s.activeRunIdRef = some b → timerFireConnects s = some (a, n) →
        a = b) := by
  refine ⟨?_, step_timerInv, ?_⟩
  · intro s runId attempt
    have hfalse : ¬ (s.activeRunIdRef = some runId
          ∧ reconnectableStage s.runStageRef) →
        shouldReconnect s runId = false := by
      intro hn
      cases hb : shouldReconnect s runId
      · rfl
      · exact absurd ((shouldReconnect_iff s runId).mp hb) hn
    refine ⟨fun hn => ?_, fun t ht => ?_, fun wasClean t ht => ?_⟩
    · exact ⟨(onStreamError_cases runId attempt s).1 (hfalse hn),
        fun wasClean =>
          (onStreamClose_cases runId attempt wasClean s).1 (hfalse hn)⟩
    · have h := (onStreamError_cases runId attempt s).2.1 t ht
      have hg := (shouldReconnect_iff s runId).mp h.1
      exact ⟨hg.1, hg.2, h.2.1⟩
    · have h := (onStreamClose_cases runId attempt wasClean s).2.2.1 t ht
      exact ⟨h.1, (shouldReconnect_iff s runId).mp h.2.1, h.2.2.1⟩
  · intro s a b n hinv hact hfire
    unfold timerFireConnects at hfire
    cases hrt : s.reconnectTimerRef with
    | none => rw [hrt] at hfire; cases hfire
    | some t0 =>
      rw [hrt] at hfire
      have hfire' : some (t0.runId, t0.nextAttempt) = some (a, n) := hfire
      injection hfire' with hpair
      have hrun : t0.runId = a := congrArg Prod.fst hpair
      have := hinv t0 hrt
      rw [hact, hrun] at this
      exact (Option.some.inj this).symm

/-- Witness for C2: in a state whose active run is `run-b` (stage
`RUNNING`), an error on the stale connection to `run-a` schedules no timer
and triggers one metadata refresh. -/
theorem reconnect_guard_witness :
    ¬ (activeRunBState.activeRunIdRef = some "run-a"
        ∧ reconnectableStage activeRunBState.runStageRef)
    ∧ (((onStreamError "run-a" 2 activeRunBState).reconnectTimerRef = none
        ∧ (onStreamError "run-a" 2 activeRunBState).refreshRunsCount
            = activeRunBState.refreshRunsCount + 1)
      ∧ ∀ wasClean,
          (onStreamClose "run-a" 2 wasClean activeRunBState).reconnectTimerRef
              = none
          ∧ (onStreamClose "run-a" 2 wasClean activeRunBState).refreshRunsCount
              = activeRunBState.refreshRunsCount + 1) :=
  ⟨by decide,
    (reconnect_guard_and_no_stale_reconnect.1 activeRunBState "run-a" 2).1
      (by decide)⟩

/-- C3: the replay-controller invariant `LiveCursorInv` — in live mode with
a non-empty tick history the cursor equals `length - 1` — is preserved by
every event of the system; switching to live mode re-snaps the cursor to
the last index (the resulting state satisfies the invariant outright,
whatever held before); and an append performed in live mode moves the
cursor to the new last index. -/
theorem live_mode_cursor_tracks_last :
    (∀ s e, LiveCursorInv s → LiveCursorInv (step s e))
    ∧ (∀ s : DashboardState, LiveCursorInv (setMode Mode.live s))
    ∧ (∀ (s : DashboardState) (t : RunTick), s.mode = Mode.live →
        (handleTick t s).cursor = (handleTick t s).tickHistory.length - 1) := by
  refine ⟨step_liveCursorInv, ?_, ?_⟩
  · intro s
    exact modeEffect_liveCursorInv { s with mode := Mode.live }
  · intro s t hmode
    have hf := handleTick_fields t s
    rw [hf.1, hf.2.2.1, if_pos hmode]

/-- Witness for C3: the invariant is preserved across a tick delivered to
the initial state, and a live-mode append in a 50-tick live state lands the
cursor on the last index. -/
theorem live_mode_cursor_tracks_last_witness :
    LiveCursorInv (step initialState (Event.tick sampleTick))
    ∧ initialState.mode = Mode.live
    ∧ (handleTick sampleTick initialState).cursor
        = (handleTick sampleTick initialState).tickHistory.length - 1 :=
  ⟨live_mode_cursor_tracks_last.1 initialState (Event.tick sampleTick)
      (fun _ hne => absurd rfl hne),
    rfl,
    live_mode_cursor_tracks_last.2.2 initialState sampleTick rfl⟩

/-- C4: switching from live to replay mode leaves the cursor unchanged, and
an append performed while in replay mode leaves the cursor unchanged (replay
does not auto-advance). -/
theorem replay_freezes_cursor :
    (∀ s : DashboardState, s.mode = Mode.live →
      (setMode Mode.replay s).cursor = s.cursor)
    ∧ (∀ (s : DashboardState) (t : RunTick), s.mode = Mode.replay →
        (handleTick t s).cursor = s.cursor) := by
  constructor
  · intro s _
    show (modeEffect { s with mode := Mode.replay }).cursor = s.cursor
    unfold modeEffect
    rw [if_neg]
    intro hcontra
    have : Mode.replay = Mode.live := hcontra.1
    cases this
  · intro s t hmode
    have hf := handleTick_fields t s
    rw [hf.2.2.1, if_neg (by rw [hmode]; intro h; cases h)]

/-- Witness for C4, the spec's frame-effect scenario: with 50 buffered
ticks, replay mode and the cursor scrubbed to index 10, the arrival of a
new tick leaves the cursor at 10; and switching a live-mode variant of the
same state to replay keeps its cursor. -/
theorem replay_freezes_cursor_witness :
    replayAt10.mode = Mode.replay
    ∧ replayAt10.cursor = 10
    ∧ replayAt10.tickHistory.length = 50
    ∧ (handleTick sampleTick replayAt10).cursor = replayAt10.cursor
    ∧ ({ replayAt10 with mode := Mode.live } : DashboardState).mode = Mode.live
    ∧ (setMode Mode.replay { replayAt10 with mode := Mode.live }).cursor
        = ({ replayAt10 with mode := Mode.live } : DashboardState).cursor :=
  ⟨rfl, rfl, by decide,
    replay_freezes_cursor.2 replayAt10 sampleTick rfl,
    rfl,
    replay_freezes_cursor.1 { replayAt10 with mode := Mode.live } rfl⟩

/-- C5: the frame handed to the renderer.  In replay mode the active tick
is the buffer element at the cursor, clamped to the nearest valid index
(`min cursor (length - 1)`) when the cursor is out of range; in live mode
it is the last element (which is the cursor position whenever
`LiveCursorInv` holds — see `live_mode_cursor_tracks_last`); a non-empty
buffer always yields a tick; with an empty buffer the derived state,
metrics and heatmap fall back to the active run record; and with no active
run either, the canvas gets the selected scenario's static layout with no
packages, robots or reservations. -/
theorem active_tick_selection :
    (∀ s : DashboardState, s.mode = Mode.replay → s.tickHistory ≠ [] →
      activeTick s
        = s.tickHistory.get? (Nat.min s.cursor (s.tickHistory.length - 1)))
    ∧ (∀ s : DashboardState, s.mode = Mode.live → s.tickHistory ≠ [] →
      activeTick s = s.tickHistory.get? (s.tickHistory.length - 1))
    ∧ (∀ s : DashboardState, s.tickHistory ≠ [] → activeTick s ≠ none)
    ∧ (∀ s : DashboardState, s.tickHistory = [] →
      activeTick s = none
      ∧ currentState s = (match s.activeRun with
          | some run => run.state
          | none => none)
      ∧ currentMetrics s = s.activeRun.map (fun run => run.metrics)
      ∧ currentHeatmap s = (match s.activeRun with
          | some run => run.heatmap
          | none => []))
    ∧ (∀ s : DashboardState, s.tickHistory = [] → s.activeRun = none →
      canvasLayout s
          = s.selectedScenario.map (fun scn => configLayout scn.config.layout)
      ∧ canvasPackages s = []
      ∧ canvasRobots s = []
      ∧ canvasReservations s = []) := by
  have hreplay : ∀ s : DashboardState, s.mode = Mode.replay →
      s.tickHistory ≠ [] →
      activeTick s
        = s.tickHistory.get? (Nat.min s.cursor (s.tickHistory.length - 1)) := by
    intro s hmode hne
    have hlen : 0 < s.tickHistory.length := List.length_pos.mpr hne
    unfold activeTick
    rw [if_neg hne, if_pos hmode]
    by_cases hc : s.cursor < s.tickHistory.length
    · have hg : s.tickHistory.get? s.cursor
          = some (s.tickHistory.get ⟨s.cursor, hc⟩) := List.get?_eq_get hc
      have hmin : Nat.min s.cursor (s.tickHistory.length - 1) = s.cursor :=
        Nat.min_eq_left (by omega)
      simp only [hg, hmin]
    · have hg : s.tickHistory.get? s.cursor = none :=
        List.get?_eq_none.mpr (by omega)
      have hmin : Nat.min s.cursor (s.tickHistory.length - 1)
          = s.tickHistory.length - 1 := Nat.min_eq_right (by omega)
      simp only [hg, hmin]
  have hlive : ∀ s : DashboardState, s.mode = Mode.live →
      s.tickHistory ≠ [] →
      activeTick s = s.tickHistory.get? (s.tickHistory.length - 1) := by
    intro s hmode hne
    unfold activeTick
    rw [if_neg hne, if_neg (by rw [hmode]; intro hx; cases hx)]
  refine ⟨hreplay, hlive, ?_, ?_, ?_⟩
  · intro s hne
    have hlen : 0 < s.tickHistory.length := List.length_pos.mpr hne
    cases hmode : s.mode with
    | live =>
      rw [hlive s hmode hne]
      intro hnone
      have := List.get?_eq_none.mp hnone
      omega
    | replay =>
      rw [hreplay s hmode hne]
      intro hnone
      have := List.get?_eq_none.mp hnone
      have hmin : Nat.min s.cursor (s.tickHistory.length - 1)
          ≤ s.tickHistory.length - 1 := Nat.min_le_right _ _
      omega
  · intro s hemp
    have hat : activeTick s = none := by
      unfold activeTick
      rw [if_pos hemp]
    refine ⟨hat, ?_, ?_, ?_⟩
    · unfold currentState
      rw [hat]
    · unfold currentMetrics
      rw [hat]
    · unfold currentHeatmap
      rw [hat]
  · intro s hemp hrun
    have hat : activeTick s = none := by
      unfold activeTick
      rw [if_pos hemp]
    have hcs : currentState s = none := by
      unfold currentState
      rw [hat, hrun]
    refine ⟨?_, ?_, ?_, ?_⟩
    · unfold canvasLayout
      rw [hcs]
      unfold fallbackLayout activeScenario
      rw [hrun]
    · unfold canvasPackages
      rw [hcs]
    · unfold canvasRobots
      rw [hcs]
    · unfold canvasReservations
      rw [hcs]

/-- Witness for C5: the replay state scrubbed to index 10 of 50. -/
theorem active_tick_selection_witness :
    replayAt10.mode = Mode.replay
    ∧ replayAt10.tickHistory ≠ []
    ∧ activeTick replayAt10
        = replayAt10.tickHistory.get?
            (Nat.min replayAt10.cursor (replayAt10.tickHistory.length - 1)) :=
  ⟨rfl, by decide, active_tick_selection.1 replayAt10 rfl (by decide)⟩

/-- C9: selecting a run atomically replaces the tick history and the
timeline with data derived solely from the newly fetched detail and stored
timeline — the right-hand sides below do not mention the previous state
`s`, so nothing is ever appended to the previous run's buffers — and the
single `activeRun` option together with `activeRunIdRef` records the one
active run. -/
theorem run_switch_replaces_buffers (s : DashboardState)
    (detail : ScenarioRunDetail) (timelineSeed : List TimelineEventDetail) :
    (handleRunSelect detail timelineSeed s).tickHistory = seedTick detail
    ∧ (handleRunSelect detail timelineSeed s).timeline
        = timelineSeed.drop (timelineSeed.length - TIMELINE_LIMIT)
    ∧ (handleRunSelect detail timelineSeed s).activeRun = some detail
    ∧ (handleRunSelect detail timelineSeed s).activeRunIdRef
        = some detail.id :=
  ⟨(handleRunSelect_fields detail timelineSeed s).1,
    (handleRunSelect_fields detail timelineSeed s).2.1,
    (handleRunSelect_fields detail timelineSeed s).2.2.1,
    (handleRunSelect_fields detail timelineSeed s).2.2.2.1⟩

/-- C10: a fetched detail with a stored state seeds the buffer with exactly
one synthetic tick (the stored state, the run's last-known metrics and
heatmap, `elapsed_seconds = 0`, no events); if additionally the stage is
not `RUNNING`/`WARMING_UP` the controller enters replay mode with cursor 0;
a detail without a stored state leaves the buffer empty, the mode live and
the cursor 0. -/
theorem run_selection_seed_and_mode (s : DashboardState)
    (detail : ScenarioRunDetail) (timelineSeed : List TimelineEventDetail) :
    (∀ st, detail.state = some st →
      (handleRunSelect detail timelineSeed s).tickHistory
          = [{ stage := detail.stage, elapsed_seconds := 0, state := st,
               metrics := detail.metrics, heatmap := detail.heatmap,
               recent_events := [] }]
      ∧ (isLiveStage detail.stage = false →
          (handleRunSelect detail timelineSeed s).mode = Mode.replay
          ∧ (handleRunSelect detail timelineSeed s).cursor = 0))
    ∧ (detail.state = none →
      (handleRunSelect detail timelineSeed s).tickHistory = []
      ∧ (handleRunSelect detail timelineSeed s).mode = Mode.live
      ∧ (handleRunSelect detail timelineSeed s).cursor = 0) := by
  have hf := handleRunSelect_fields detail timelineSeed s
  constructor
  · intro st hst
    have hseed : seedTick detail
        = [{ stage := detail.stage, elapsed_seconds := 0, state := st,
             metrics := detail.metrics, heatmap := detail.heatmap,
             recent_events := [] }] := by
      unfold seedTick
      rw [hst]
    refine ⟨by rw [hf.1, hseed], fun hnl => ⟨?_, hf.2.2.2.2.2.2.2⟩⟩
    rw [hf.2.2.2.2.2.2.1, hseed, if_neg (by simp [hnl]), if_pos (by simp)]
  · intro hst
    have hseed : seedTick detail = [] := by
      unfold seedTick
      rw [hst]
    refine ⟨by rw [hf.1, hseed], ?_, hf.2.2.2.2.2.2.2⟩
    rw [hf.2.2.2.2.2.2.1, hseed]
    by_cases hL : isLiveStage detail.stage = true
    · rw [if_pos hL]
    · rw [if_neg hL, if_neg (by simp)]

/-- Witness for C10: selecting the finished sample run (stored state
present, stage `COMPLETED`). -/
theorem run_selection_seed_and_mode_witness :
    sampleDetail.state = some sampleSimState
    ∧ isLiveStage sampleDetail.stage = false
    ∧ (handleRunSelect sampleDetail [] initialState).tickHistory
        = [{ stage := sampleDetail.stage, elapsed_seconds := 0,
             state := sampleSimState, metrics := sampleDetail.metrics,
             heatmap := sampleDetail.heatmap, recent_events := [] }]
    ∧ (handleRunSelect sampleDetail [] initialState).mode = Mode.replay
    ∧ (handleRunSelect sampleDetail [] initialState).cursor = 0 :=
  ⟨rfl, rfl,
    ((run_selection_seed_and_mode initialState sampleDetail []).1
        sampleSimState rfl).1,
    (((run_selection_seed_and_mode initialState sampleDetail []).1
        sampleSimState rfl).2 rfl).1,
    (((run_selection_seed_and_mode initialState sampleDetail []).1
        sampleSimState rfl).2 rfl).2⟩

/-- C6: the reconnect backoff.  When the guard holds and the failed attempt
number `n` (starting at 0) is below the cutoff, `scheduleReconnect`
registers a timer that waits exactly `min(n + 1, 5)` seconds
(`Math.min(5, n + 1) * 1000` milliseconds in the source) before issuing
`connect(n + 1)`; every timer it ever registers carries
`nextAttempt = n + 1` and exists only for `n < 5`, so attempt numbers grow
strictly along a retry chain and stop after the fifth retry: from `5 ≤ n`
on, no timer is registered, the user-visible terminal toast is raised and
a run-metadata refresh is triggered instead. -/
theorem reconnect_backoff_schedule (s : DashboardState) (runId : String)
    (n : Nat) :
    (shouldReconnect s runId = true → n < 5 →
      (scheduleReconnect runId n s).reconnectTimerRef
        = some (ReconnectTimer.mk runId (n + 1) (Nat.min (n + 1) 5 * 1000)))
    ∧ (shouldReconnect s runId = true → 5 ≤ n →
      (scheduleReconnect runId n s).reconnectTimerRef = none
      ∧ (scheduleReconnect runId n s).toasts
          = s.toasts ++ ["Run stream lost connection"]
      ∧ (scheduleReconnect runId n s).refreshRunsCount
          = s.refreshRunsCount + 1)
    ∧ (∀ t, (scheduleReconnect runId n s).reconnectTimerRef = some t →
        t.nextAttempt = n + 1 ∧ n < 5) := by
  refine ⟨fun hsr hlt => ?_,
    fun hsr hge => (scheduleReconnect_cases runId n s).2.1 hsr hge,
    fun t ht => ?_⟩
  · rw [(scheduleReconnect_cases runId n s).2.2.1 hsr hlt,
      show Nat.min 5 (n + 1) = Nat.min (n + 1) 5 from Nat.min_comm 5 (n + 1)]
  · have h := scheduleReconnect_timer_inv runId n s t ht
    exact ⟨h.2.2.1, h.2.2.2⟩

/-- Witness for C6: the third failure (attempt 2) of a live connection
schedules a retry in `min(3, 5) = 3` seconds. -/
theorem reconnect_backoff_schedule_witness :
    shouldReconnect pendingTimerState "run-a" = true
    ∧ (2 : Nat) < 5
    ∧ (scheduleReconnect "run-a" 2 pendingTimerState).reconnectTimerRef
        = some (ReconnectTimer.mk "run-a" 3 (Nat.min 3 5 * 1000)) :=
  ⟨by decide, by decide,
    (reconnect_backoff_schedule pendingTimerState "run-a" 2).1
      (by decide) (by decide)⟩

instance : IsTotal ScenarioRun newerEq :=
  ⟨fun a b => le_total b.created_at a.created_at⟩

instance : IsTrans ScenarioRun newerEq :=
  ⟨fun _ _ _ hab hbc => le_trans hbc hab⟩

/-- C7 counterexample: runs `run-a` (stage `RUNNING`, created at epoch 100)
and `run-b` (stage `COMPLETED`, created at epoch 200) both belong to the
inspected scenario, and `run-b` is the currently active run — a state only
an operator's explicit manual selection can produce, since the heuristic
itself never picks `run-b` while `run-a` is live.  The auto-select effect
nevertheless fires `handleRunSelect` for `run-a`, overriding the manual
choice; this refutes the part of the claim that says the heuristic never
overrides an operator's explicit manual selection. -/
theorem auto_select_overrides_manual_selection :
    autoSelectTarget (some sampleScenario) [runA, runB] (some "run-b")
      = some "run-a" := by
  rfl

/-- C7 amended: the auto-select heuristic picks, among the runs belonging
to the inspected scenario, one whose stage is `RUNNING` or `WARMING_UP`
when such a run exists, and otherwise a most recently created one; it
fires `handleRunSelect` exactly when the preferred run differs from the
currently active one — so it does override a manual selection of a
non-preferred run, and a manual selection persists only when the selected
run is itself the preferred one. -/
theorem auto_select_heuristic (sel : ScenarioSummary) (runs : List ScenarioRun)
    (activeRunId : Option String) :
    (∀ p, preferredRun sel runs = some p →
      p ∈ runs ∧ p.scenario_id = sel.id
      ∧ ((∃ r ∈ runs, r.scenario_id = sel.id ∧ isLiveStage r.stage = true) →
          isLiveStage p.stage = true)
      ∧ ((∀ r ∈ runs, r.scenario_id = sel.id → isLiveStage r.stage = false) →
          ∀ r ∈ runs, r.scenario_id = sel.id → r.created_at ≤ p.created_at))
    ∧ ((∃ r ∈ runs, r.scenario_id = sel.id) →
        ∃ p, preferredRun sel runs = some p)
    ∧ (∀ p, preferredRun sel runs = some p →
        (autoSelectTarget (some sel) runs activeRunId = none
          ↔ activeRunId = some p.id)) := by
  have hperm := List.perm_insertionSort newerEq
    (runs.filter (fun run => run.scenario_id == sel.id))
  have hsort := List.sorted_insertionSort newerEq
    (runs.filter (fun run => run.scenario_id == sel.id))
  refine ⟨?_, ?_, ?_⟩
  · intro p hp
    unfold preferredRun at hp
    by_cases hruns : runs = []
    · rw [if_pos hruns] at hp
      cases hp
    · rw [if_neg hruns] at hp
      dsimp only at hp
      cases hsorted : List.insertionSort newerEq
          (runs.filter (fun run => run.scenario_id == sel.id)) with
      | nil =>
        rw [hsorted] at hp
        cases hp
      | cons first rest =>
        rw [hsorted] at hp
        injection hp with hp'
        have hmem_sorted : ∀ x, x ∈ first :: rest →
            x ∈ runs ∧ x.scenario_id = sel.id := by
          intro x hx
          rw [← hsorted] at hx
          have := List.mem_filter.mp (hperm.mem_iff.mp hx)
          exact ⟨this.1, by simpa using this.2⟩
        cases hfind : (first :: rest).find?
            (fun run => isLiveStage run.stage) with
        | some q =>
          rw [hfind] at hp'
          subst hp'
          have hqmem := hmem_sorted q (List.mem_of_find?_eq_some hfind)
          have hqlive : isLiveStage q.stage = true := by
            simpa using List.find?_some hfind
          refine ⟨hqmem.1, hqmem.2, fun _ => hqlive, fun hall => ?_⟩
          have hfalse := hall q hqmem.1 hqmem.2
          rw [hqlive] at hfalse
          cases hfalse
        | none =>
          rw [hfind] at hp'
          subst hp'
          have hpmem := hmem_sorted first (List.mem_cons_self first rest)
          refine ⟨hpmem.1, hpmem.2, ?_, ?_⟩
          · rintro ⟨r, hrr, hrs, hrl⟩
            have hrsorted : r ∈ first :: rest := by
              rw [← hsorted]
              exact hperm.mem_iff.mpr
                (List.mem_filter.mpr ⟨hrr, by simp [hrs]⟩)
            have := List.find?_eq_none.mp hfind r hrsorted
            simp [hrl] at this
          · intro _ r hrr hrs
            have hrsorted : r ∈ first :: rest := by
              rw [← hsorted]
              exact hperm.mem_iff.mpr
                (List.mem_filter.mpr ⟨hrr, by simp [hrs]⟩)
            rcases List.mem_cons.mp hrsorted with hq | hq
            · rw [hq]
            · have hsorted' : List.Sorted newerEq (first :: rest) := by
                rw [← hsorted]
                exact hsort
              exact (List.pairwise_cons.mp hsorted').1 r hq
  · rintro ⟨r, hrr, hrs⟩
    have hruns : runs ≠ [] := by
      intro h0
      rw [h0] at hrr
      cases hrr
    have hrm : r ∈ List.insertionSort newerEq
        (runs.filter (fun run => run.scenario_id == sel.id)) :=
      hperm.mem_iff.mpr (List.mem_filter.mpr ⟨hrr, by simp [hrs]⟩)
    unfold preferredRun
    rw [if_neg hruns]
    dsimp only
    cases hsorted : List.insertionSort newerEq
        (runs.filter (fun run => run.scenario_id == sel.id)) with
    | nil =>
      rw [hsorted] at hrm
      cases hrm
    | cons first rest =>
      exact ⟨_, rfl⟩
  · intro p hp
    unfold autoSelectTarget
    dsimp only
    rw [hp]
    dsimp only
    by_cases hA : activeRunId = some p.id
    · rw [if_pos hA]
      simp [hA]
    · rw [if_neg hA]
      simp [hA]

/-- Witness for the amended C7: in the two-run state of the
counterexample, the preferred run is the live `run-a`; it belongs to the
scenario, it is live (a live run exists), and the effect fires exactly
because the active run `run-b` is not the preferred one. -/
theorem auto_select_heuristic_witness :
    preferredRun sampleScenario [runA, runB] = some runA
    ∧ runA ∈ [runA, runB] ∧ runA.scenario_id = sampleScenario.id
    ∧ isLiveStage runA.stage = true
    ∧ (autoSelectTarget (some sampleScenario) [runA, runB] (some "run-b")
          = none
        ↔ some "run-b" = some runA.id) :=
  ⟨rfl,
    ((auto_select_heuristic sampleScenario [runA, runB] (some "run-b")).1
        runA rfl).1,
    ((auto_select_heuristic sampleScenario [runA, runB] (some "run-b")).1
        runA rfl).2.1,
    ((auto_select_heuristic sampleScenario [runA, runB] (some "run-b")).1
        runA rfl).2.2.1 ⟨runA, List.mem_cons_self runA [runB], rfl, rfl⟩,
    (auto_select_heuristic sampleScenario [runA, runB] (some "run-b")).2.2
      runA rfl⟩

theorem le_foldl_max (l : List Nat) : ∀ acc : Nat,
    acc ≤ l.foldl Nat.max acc ∧ ∀ x ∈ l, x ≤ l.foldl Nat.max acc := by
  induction l with
  | nil =>
    intro acc
    exact ⟨le_refl _, fun x hx => absurd hx (List.not_mem_nil x)⟩
  | cons y l ih =>
    intro acc
    constructor
    · exact le_trans (Nat.le_max_left acc y) (ih (Nat.max acc y)).1
    · intro x hx
      rcases List.mem_cons.mp hx with h | h
      · subst h
        exact le_trans (Nat.le_max_right acc x) (ih (Nat.max acc x)).1
      · exact (ih (Nat.max acc y)).2 x h

theorem count_le_maxCount (heatmap : Heatmap) (k : String) (c : Nat)
    (hmem : (k, c) ∈ heatmap) : c ≤ maxCount heatmap := by
  unfold maxCount
  exact (le_foldl_max (heatmap.map Prod.snd) 0).2 c
    (List.mem_map.mpr ⟨(k, c), hmem, rfl⟩)

/-- C8: heatmap rendering.  Every cell fill that `drawHeatmap` performs has
`alpha = intensity`, an intensity in `[0, 1]` equal to the cell's visit
count divided by the snapshot's maximum visit count, and stems from a
parseable heatmap entry; an all-zero snapshot (in particular an empty one)
draws nothing and the function is total, so it cannot throw.  On the
spec's example `{A:10, B:5, C:0}` (cells `0:0`, `1:0`, `2:0`) the
intensities are `1`, `1/2` and `0`, and the fills that change any pixel —
an alpha-`0` blend is the identity — are exactly those of `A` and `B`, so
nothing is drawn for `C`. -/
theorem heatmap_rendering :
    (∀ heatmap : Heatmap, ∀ op ∈ drawHeatmap heatmap,
      op.alpha = op.intensity
      ∧ 0 ≤ op.intensity ∧ op.intensity ≤ 1
      ∧ ∃ k c, (k, c) ∈ heatmap ∧ parseCellKey k = some (op.x, op.y)
          ∧ op.intensity = (c : ℚ) / (maxCount heatmap : ℚ))
    ∧ (∀ heatmap : Heatmap, maxCount heatmap = 0 → drawHeatmap heatmap = [])
    ∧ drawHeatmap [] = []
    ∧ drawHeatmap [("0:0", 10), ("1:0", 5), ("2:0", 0)]
        = [{ x := 0, y := 0, intensity := 1, alpha := 1 },
           { x := 1, y := 0, intensity := 1/2, alpha := 1/2 },
           { x := 2, y := 0, intensity := 0, alpha := 0 }]
    ∧ visibleHeatOps [("0:0", 10), ("1:0", 5), ("2:0", 0)]
        = [{ x := 0, y := 0, intensity := 1, alpha := 1 },
           { x := 1, y := 0, intensity := 1/2, alpha := 1/2 }] := by
  have h0 : parseCellKey "0:0" = some (0, 0) := by decide
  have h1 : parseCellKey "1:0" = some (1, 0) := by decide
  have h2 : parseCellKey "2:0" = some (2, 0) := by decide
  have hmax : maxCount [("0:0", 10), ("1:0", 5), ("2:0", 0)] = 10 := by decide
  have hdraw : drawHeatmap [("0:0", 10), ("1:0", 5), ("2:0", 0)]
      = [{ x := 0, y := 0, intensity := 1, alpha := 1 },
         { x := 1, y := 0, intensity := 1/2, alpha := 1/2 },
         { x := 2, y := 0, intensity := 0, alpha := 0 }] := by
    unfold drawHeatmap
    rw [if_neg (by decide), hmax]
    rw [if_neg (by decide)]
    simp only [List.filterMap_cons, List.filterMap_nil, h0, h1, h2]
    norm_num
  refine ⟨?_, ?_, rfl, hdraw, ?_⟩
  · intro heatmap op hop
    unfold drawHeatmap at hop
    split at hop
    · exact absurd hop (List.not_mem_nil op)
    · split at hop
      · exact absurd hop (List.not_mem_nil op)
      · rename_i hne hmax0
        obtain ⟨⟨k, c⟩, hmem, hfa⟩ := List.mem_filterMap.mp hop
        cases hpk : parseCellKey k with
        | none =>
          rw [hpk] at hfa
          cases hfa
        | some xy =>
          obtain ⟨x, y⟩ := xy
          rw [hpk] at hfa
          dsimp only at hfa
          injection hfa with hfa'
          subst hfa'
          have hcle : c ≤ maxCount heatmap := count_le_maxCount heatmap k c hmem
          have hpos : (0 : ℚ) < (maxCount heatmap : ℚ) := by
            have : 0 < maxCount heatmap := Nat.pos_of_ne_zero hmax0
            exact_mod_cast this
          have hdivle : (c : ℚ) / (maxCount heatmap : ℚ) ≤ 1 :=
            (div_le_one hpos).mpr (by exact_mod_cast hcle)
          have hdivnn : (0 : ℚ) ≤ (c : ℚ) / (maxCount heatmap : ℚ) :=
            div_nonneg (by positivity) (le_of_lt hpos)
          refine ⟨rfl, le_min hdivnn (by norm_num), min_le_right _ _,
            k, c, hmem, hpk, min_eq_left hdivle⟩
  · intro heatmap hm0
    unfold drawHeatmap
    by_cases hne : heatmap = []
    · rw [if_pos hne]
    · rw [if_neg hne, if_pos hm0]
  · unfold visibleHeatOps
    rw [hdraw]
    simp only [List.filter_cons, List.filter_nil]
    norm_num

/-- Witness for C8: the all-zero single-cell snapshot draws nothing. -/
theorem heatmap_rendering_witness :
    maxCount [("0:0", 0)] = 0
    ∧ drawHeatmap [("0:0", 0)] = [] :=
  ⟨rfl, heatmap_rendering.2.1 [("0:0", 0)] rfl⟩
